import Mathlib

/-!
# Verification of the tinyland-a11y-logger buffering and flush engine

Shallow embedding of `src/a11y-logger.ts` and `src/config.ts`.

Modelling conventions:
* JS numbers carried in label maps are modelled as `Rat` (exact; the code
  never relies on float rounding for these values).
* An entry's timestamp is an ISO-8601 string in the source, produced by
  `new Date().toISOString()` and re-parsed with `new Date(ts).getTime()`
  at flush time; that round trip is exact at millisecond precision, so the
  timestamp is modelled directly as epoch milliseconds (`Nat`).
* `JSON.stringify` of the per-entry log line is modelled by the abstract
  key/value object it serialises (`List (String × JsonVal)`); no claim
  inspects the concrete escaping of that string.
* Side effects (`console.log`, `fetch`, `console.error`) are modelled as an
  emitted event list (`Emit`), in program order.
* `setTimeout` / `clearTimeout` are modelled by a set of pending one-shot
  tasks (`pending : List Nat`) plus the stored handle
  (`flushTimer : Option Nat`); arming appends a fresh id, `clearTimeout`
  removes the id, and a timer can only fire while its id is still pending.
-/

/-- Entry level: `'info' | 'warn' | 'error'` from `types.ts`. -/
inductive Level where
  | info
  | warn
  | error
deriving DecidableEq, Repr

/-- The lowercase wire name of a level. -/
def Level.render : Level → String
  | .info => "info"
  | .warn => "warn"
  | .error => "error"

/-- `log.level.toUpperCase()` as used by the development console echo. -/
def Level.toUpper : Level → String
  | .info => "INFO"
  | .warn => "WARN"
  | .error => "ERROR"

/-- A label value: `string | number` in `Record<string, string | number>`. -/
inductive JsonVal where
  | str (s : String)
  | num (q : Rat)
deriving DecidableEq, Repr

/-- `A11yLogEntry` from `types.ts`; `timestampMs` is the epoch-millisecond
reading of the ISO timestamp string (see module conventions). -/
structure A11yLogEntry where
  level : Level
  message : String
  timestampMs : Nat
  sessionId : Option String
  labels : List (String × JsonVal)
deriving DecidableEq, Repr

/-- `A11yLoggerConfig` from `config.ts`: every field optional. -/
structure A11yLoggerConfig where
  lokiUrl : Option String := none
  lokiEnabled : Option Bool := none
  isDevelopment : Option Bool := none
  flushInterval : Option Nat := none
  maxBufferSize : Option Nat := none
  jobLabel : Option String := none
  containerLabel : Option String := none
  environment : Option String := none
  serviceLabel : Option String := none
  registerShutdownHook : Option Bool := none
deriving DecidableEq, Repr

/-- `Required<A11yLoggerConfig>`: the fully resolved configuration. -/
structure ResolvedConfig where
  lokiUrl : String
  lokiEnabled : Bool
  isDevelopment : Bool
  flushInterval : Nat
  maxBufferSize : Nat
  jobLabel : String
  containerLabel : String
  environment : String
  serviceLabel : String
  registerShutdownHook : Bool
deriving DecidableEq, Repr

/-- `DEFAULTS` from `config.ts`. -/
def DEFAULTS : ResolvedConfig where
  lokiUrl := "http://localhost:3100"
  lokiEnabled := false
  isDevelopment := false
  flushInterval := 1000
  maxBufferSize := 100
  jobLabel := "accessibility"
  containerLabel := "stonewall-sveltekit"
  environment := "development"
  serviceLabel := "a11y-monitoring"
  registerShutdownHook := true

/-- `getA11yLoggerConfig` from `config.ts`: apply `??` defaults per field. -/
def getA11yLoggerConfig (c : A11yLoggerConfig) : ResolvedConfig where
  lokiUrl := c.lokiUrl.getD DEFAULTS.lokiUrl
  lokiEnabled := c.lokiEnabled.getD DEFAULTS.lokiEnabled
  isDevelopment := c.isDevelopment.getD DEFAULTS.isDevelopment
  flushInterval := c.flushInterval.getD DEFAULTS.flushInterval
  maxBufferSize := c.maxBufferSize.getD DEFAULTS.maxBufferSize
  jobLabel := c.jobLabel.getD DEFAULTS.jobLabel
  containerLabel := c.containerLabel.getD DEFAULTS.containerLabel
  environment := c.environment.getD DEFAULTS.environment
  serviceLabel := c.serviceLabel.getD DEFAULTS.serviceLabel
  registerShutdownHook := c.registerShutdownHook.getD DEFAULTS.registerShutdownHook

/-- `configureA11yLogger`: `config = \x7b ...config, ...c \x7d` — field-wise
override where the new partial config supplies a value. -/
def configureA11yLogger (old c : A11yLoggerConfig) : A11yLoggerConfig where
  lokiUrl := c.lokiUrl <|> old.lokiUrl
  lokiEnabled := c.lokiEnabled <|> old.lokiEnabled
  isDevelopment := c.isDevelopment <|> old.isDevelopment
  flushInterval := c.flushInterval <|> old.flushInterval
  maxBufferSize := c.maxBufferSize <|> old.maxBufferSize
  jobLabel := c.jobLabel <|> old.jobLabel
  containerLabel := c.containerLabel <|> old.containerLabel
  environment := c.environment <|> old.environment
  serviceLabel := c.serviceLabel <|> old.serviceLabel
  registerShutdownHook := c.registerShutdownHook <|> old.registerShutdownHook

/-- One Loki stream object as built inside `flushLogs` (lines 59-76). -/
structure LokiStream where
  job : String
  container : String
  environment : String
  service : String
  values : List (String × List (String × JsonVal))
deriving DecidableEq, Repr

/-- Observable side effects of the engine, in program order. -/
inductive Emit where
  /-- `console.log` of one development echo line with its label map. -/
  | consoleLine (line : String) (labels : List (String × JsonVal))
  /-- one `fetch` POST of a Loki push payload to `url`. -/
  | post (url : String) (streams : List LokiStream)
  /-- `console.error` diagnostic report with its error argument. -/
  | consoleError (message err : String)
deriving DecidableEq, Repr

/-- Whether an emitted effect is a network POST. -/
def Emit.isPost : Emit → Bool
  | .post _ _ => true
  | _ => false

/-- Outcome of the one suspending transport call (`await fetch`). -/
inductive TransportOutcome where
  | ok
  | failure (err : String)
deriving DecidableEq, Repr

/-- The transport call as the `try` block sees it: it either completes or
raises (network error / rejected promise). -/
def fetchResult : TransportOutcome → Except String Unit
  | .ok => .ok ()
  | .failure err => .error err

/-- The JSON object `JSON.stringify` serialises for one entry:
`\x7b level, msg, ...log.labels \x7d` (lines 69-73). -/
def logLine (log : A11yLogEntry) : List (String × JsonVal) :=
  ("level", .str log.level.render) :: ("msg", .str log.message) :: log.labels

/-- One element of `values`: the nanosecond timestamp string
`(new Date(log.timestamp).getTime() * 1000000).toString()` paired with the
serialised log line (lines 67-74). -/
def entryValue (log : A11yLogEntry) : String × List (String × JsonVal) :=
  (Nat.repr (log.timestampMs * 1000000), logLine log)

/-- The single stream built for a batch (lines 59-76). -/
def mkStream (cfg : ResolvedConfig) (logsToSend : List A11yLogEntry) : LokiStream where
  job := cfg.jobLabel
  container := cfg.containerLabel
  environment := cfg.environment
  service := cfg.serviceLabel
  values := logsToSend.map entryValue

/-- The development echo of one entry (line 52). -/
def devEcho (log : A11yLogEntry) : Emit :=
  .consoleLine ("[A11y " ++ log.level.toUpper ++ "] " ++ log.message) log.labels

/-- `flushLogs` (lines 40-88), at the level of the `logBuffer` variable,
which is all the state it touches. Returns the new buffer contents and the
emitted effects. `outcome` resolves the single `await fetch`. -/
def flushLogs (cfg : ResolvedConfig) (outcome : TransportOutcome)
    (logBuffer : List A11yLogEntry) : List A11yLogEntry × List Emit :=
  if logBuffer.length = 0 then (logBuffer, [])
  else
    let logsToSend := logBuffer
    -- `logBuffer = []` happens here, before any asynchronous work
    if !cfg.lokiEnabled then
      ([], logsToSend.filterMap fun log =>
        if cfg.isDevelopment then some (devEcho log) else none)
    else
      let streams := [mkStream cfg logsToSend]
      let attempt := Emit.post (cfg.lokiUrl ++ "/loki/api/v1/push") streams
      match fetchResult outcome with
      | .ok _ => ([], [attempt])
      | .error err =>
        ([], [attempt, .consoleError "[A11y Logger] Failed to send logs to Loki:" err])

/-- Scheduler state: the module-level mutable variables of `a11y-logger.ts`
plus the runtime's pending one-shot timer tasks (`pending`) and a fresh-id
counter used when arming a timer. -/
structure LoggerState where
  logBuffer : List A11yLogEntry
  flushTimer : Option Nat
  pending : List Nat
  nextTimerId : Nat
deriving DecidableEq, Repr

/-- Startup / `_resetInternalState` scheduler state. -/
def LoggerState.init : LoggerState where
  logBuffer := []
  flushTimer := none
  pending := []
  nextTimerId := 0

/-- `scheduleFlush` (lines 93-106): no-op while a handle is stored,
otherwise arm one fresh one-shot task and store its handle. -/
def scheduleFlush (s : LoggerState) : LoggerState :=
  match s.flushTimer with
  | some _ => s
  | none =>
    { s with
      flushTimer := some s.nextTimerId
      pending := s.pending ++ [s.nextTimerId]
      nextTimerId := s.nextTimerId + 1 }

/-- The `if (flushTimer) \x7b clearTimeout(flushTimer); flushTimer = null \x7d`
pattern (lines 118-121 and 307-310). -/
def clearPendingTimer (s : LoggerState) : LoggerState :=
  match s.flushTimer with
  | none => s
  | some id => { s with flushTimer := none, pending := s.pending.erase id }

/-- `addLog` (lines 111-126): push, then size-threshold check against the
freshly read settings. -/
def addLog (cfg : ResolvedConfig) (outcome : TransportOutcome)
    (entry : A11yLogEntry) (s : LoggerState) : LoggerState × List Emit :=
  let s0 := { s with logBuffer := s.logBuffer ++ [entry] }
  if cfg.maxBufferSize ≤ s0.logBuffer.length then
    let s1 := clearPendingTimer s0
    let r := flushLogs cfg outcome s1.logBuffer
    ({ s1 with logBuffer := r.1 }, r.2)
  else
    (scheduleFlush s0, [])

/-- The `setTimeout` callback firing (lines 97-100): the runtime retires the
task, the callback clears the handle and then invokes `flushLogs`. Only a
still-pending task can fire. -/
def timerFire (cfg : ResolvedConfig) (outcome : TransportOutcome)
    (id : Nat) (s : LoggerState) : LoggerState × List Emit :=
  let s0 := { s with pending := s.pending.erase id, flushTimer := none }
  let r := flushLogs cfg outcome s0.logBuffer
  ({ s0 with logBuffer := r.1 }, r.2)

/-- `a11yLogger.flush` (lines 306-312): cancel any pending timer, then flush. -/
def manualFlush (cfg : ResolvedConfig) (outcome : TransportOutcome)
    (s : LoggerState) : LoggerState × List Emit :=
  let s0 := clearPendingTimer s
  let r := flushLogs cfg outcome s0.logBuffer
  ({ s0 with logBuffer := r.1 }, r.2)

/-- JS `x || d` on an optional string argument: `undefined` and `""` are
falsy, any other string is kept. -/
def orDefaultStr (v : Option String) (d : String) : String :=
  match v with
  | none => d
  | some s => if s = "" then d else s

/-- JS `x || d` on an optional numeric argument: `undefined` and `0` are
falsy, any other number is kept. -/
def orDefaultNum (v : Option Rat) (d : Rat) : Rat :=
  match v with
  | none => d
  | some q => if q = 0 then d else q

/-- `elementInfo` nested argument of contrast/aria calls. -/
structure ElementInfo where
  tagName : String
  text : Option String := none
deriving DecidableEq, Repr

/-- `ContrastLabels` argument bag from `types.ts`. -/
structure ContrastLabels where
  sessionId : Option String := none
  selector : Option String := none
  ratio : Option Rat := none
  requiredRatio : Option Rat := none
  foreground : Option String := none
  background : Option String := none
  wcagLevel : Option String := none
  elementInfo : Option ElementInfo := none
  page : Option String := none
  theme : Option String := none
deriving DecidableEq, Repr

/-- `WcagLabels` argument bag from `types.ts`. -/
structure WcagLabels where
  sessionId : Option String := none
  selector : Option String := none
  rule : Option String := none
  wcagLevel : Option String := none
  severity : Option String := none
deriving DecidableEq, Repr

/-- The entry built by `a11yLogger.contrast` (lines 162-182); `now` is the
epoch-millisecond reading of `new Date().toISOString()`. -/
def contrastEntry (now : Nat) (message : String) (l : ContrastLabels) : A11yLogEntry where
  level := match l.ratio with
    | some r => if r < 3 then .error else .warn
    | none => .warn
  message := message
  timestampMs := now
  sessionId := l.sessionId
  labels :=
    [ ("type", .str "contrast")
    , ("selector", .str (orDefaultStr l.selector "unknown"))
    , ("ratio", .num (orDefaultNum l.ratio 0))
    , ("requiredRatio", .num (orDefaultNum l.requiredRatio 4.5))
    , ("foreground", .str (orDefaultStr l.foreground "unknown"))
    , ("background", .str (orDefaultStr l.background "unknown"))
    , ("wcagLevel", .str (orDefaultStr l.wcagLevel "AA"))
    , ("tagName", .str (orDefaultStr (l.elementInfo.map ElementInfo.tagName) "unknown"))
    , ("page", .str (orDefaultStr l.page ""))
    , ("theme", .str (orDefaultStr l.theme "")) ]

/-- The entry built by `a11yLogger.wcag` (lines 187-202). -/
def wcagEntry (now : Nat) (message : String) (l : WcagLabels) : A11yLogEntry where
  level := if l.severity = some "error" then .error else .warn
  message := message
  timestampMs := now
  sessionId := l.sessionId
  labels :=
    [ ("type", .str "wcag")
    , ("selector", .str (orDefaultStr l.selector "unknown"))
    , ("rule", .str (orDefaultStr l.rule "unknown"))
    , ("wcagLevel", .str (orDefaultStr l.wcagLevel "AA"))
    , ("severity", .str (orDefaultStr l.severity "warning")) ]

/-- Lookup of one label key in an entry's label map. -/
def lookupLabel (e : A11yLogEntry) (key : String) : Option JsonVal :=
  (e.labels.find? fun kv => kv.1 = key).map Prod.snd

/-- `EvaluationLabels` argument bag from `types.ts`. -/
structure EvaluationLabels where
  sessionId : Option String := none
  resultsCount : Option Rat := none
  issuesCount : Option Rat := none
  criticalCount : Option Rat := none
  evaluationTimeMs : Option Rat := none
deriving DecidableEq, Repr

/-- `SessionLabels` argument bag from `types.ts`. -/
structure SessionLabels where
  sessionId : Option String := none
  action : Option String := none
  userId : Option String := none
  userAgent : Option String := none
deriving DecidableEq, Repr

/-- `ErrorLabels` argument bag from `types.ts`. -/
structure ErrorLabels where
  sessionId : Option String := none
  error : Option String := none
  stack : Option String := none
deriving DecidableEq, Repr

/-- `SummaryData` argument bag from `types.ts`: the five counts are
required, only `sessionId` is optional. -/
structure SummaryData where
  totalElements : Rat
  evaluatedElements : Rat
  issues : Rat
  criticalIssues : Rat
  evaluationTimeMs : Rat
  sessionId : Option String := none
deriving DecidableEq, Repr

/-- The `elementInfo` nested argument of aria calls (its optional second
field is `html`, not `text`). -/
structure AriaElementInfo where
  tagName : String
  html : Option String := none
deriving DecidableEq, Repr

/-- `AriaLabels` argument bag from `types.ts`. -/
structure AriaLabels where
  sessionId : Option String := none
  selector : Option String := none
  issue : Option String := none
  elementInfo : Option AriaElementInfo := none
  fix : Option String := none
  page : Option String := none
deriving DecidableEq, Repr

/-- JS template interpolation of a number into the summary message: exact
for the integer-valued counts the message carries; non-integral values
(exercised by no claim) fall back to `Rat` notation. -/
def jsNumToString (q : Rat) : String :=
  if q.den = 1 then toString q.num else toString q

/-- The entry built by `a11yLogger.evaluation` (lines 207-222). -/
def evaluationEntry (now : Nat) (message : String) (l : EvaluationLabels) :
    A11yLogEntry where
  level := .info
  message := message
  timestampMs := now
  sessionId := l.sessionId
  labels :=
    [ ("type", .str "evaluation")
    , ("resultsCount", .num (orDefaultNum l.resultsCount 0))
    , ("issuesCount", .num (orDefaultNum l.issuesCount 0))
    , ("criticalCount", .num (orDefaultNum l.criticalCount 0))
    , ("evaluationTimeMs", .num (orDefaultNum l.evaluationTimeMs 0)) ]

/-- The entry built by `a11yLogger.session` (lines 227-241). -/
def sessionEntry (now : Nat) (message : String) (l : SessionLabels) :
    A11yLogEntry where
  level := .info
  message := message
  timestampMs := now
  sessionId := l.sessionId
  labels :=
    [ ("type", .str "session")
    , ("action", .str (orDefaultStr l.action "unknown"))
    , ("userId", .str (orDefaultStr l.userId "anonymous"))
    , ("userAgent", .str (orDefaultStr l.userAgent "unknown")) ]

/-- The entry built by `a11yLogger.error` (lines 246-259). -/
def errorEntry (now : Nat) (message : String) (l : ErrorLabels) :
    A11yLogEntry where
  level := .error
  message := message
  timestampMs := now
  sessionId := l.sessionId
  labels :=
    [ ("type", .str "error")
    , ("error", .str (orDefaultStr l.error "unknown"))
    , ("stack", .str (orDefaultStr l.stack "")) ]

/-- The entry built by `a11yLogger.summary` (lines 264-280): the message is
synthesized from the counts and every label carries its required value
verbatim. -/
def summaryEntry (now : Nat) (data : SummaryData) : A11yLogEntry where
  level := .info
  message := "Accessibility summary: " ++ jsNumToString data.issues ++
    " issues (" ++ jsNumToString data.criticalIssues ++ " critical)"
  timestampMs := now
  sessionId := data.sessionId
  labels :=
    [ ("type", .str "summary")
    , ("totalElements", .num data.totalElements)
    , ("evaluatedElements", .num data.evaluatedElements)
    , ("issues", .num data.issues)
    , ("criticalIssues", .num data.criticalIssues)
    , ("evaluationTimeMs", .num data.evaluationTimeMs) ]

/-- The entry built by `a11yLogger.aria` (lines 285-301). -/
def ariaEntry (now : Nat) (message : String) (l : AriaLabels) :
    A11yLogEntry where
  level := .warn
  message := message
  timestampMs := now
  sessionId := l.sessionId
  labels :=
    [ ("type", .str "aria")
    , ("selector", .str (orDefaultStr l.selector "unknown"))
    , ("issue", .str (orDefaultStr l.issue "unknown"))
    , ("tagName", .str (orDefaultStr (l.elementInfo.map AriaElementInfo.tagName)
        "unknown"))
    , ("fix", .str (orDefaultStr l.fix ""))
    , ("page", .str (orDefaultStr l.page "")) ]

/-- Heap of JS array objects, addressed by allocation index: models the
aliasing structure relevant to `_getLogBuffer`'s defensive copy. -/
structure BufferHeap where
  heap : List (List A11yLogEntry)
  bufRef : Nat
  flushTimer : Option Nat
deriving DecidableEq, Repr

/-- Read the array object stored at reference `r`. -/
def readArr (h : List (List A11yLogEntry)) (r : Nat) : List A11yLogEntry :=
  h.getD r []

/-- `_getLogBuffer` (lines 323-325): `return [...logBuffer]` allocates a
fresh array holding the queue's current contents and returns its reference. -/
def getLogBufferCopy (s : BufferHeap) : Nat × BufferHeap :=
  (s.heap.length, { s with heap := s.heap ++ [readArr s.heap s.bufRef] })

/-- A caller-side mutation of the array object at `r` (append, removal or
replacement of elements all replace that object's contents). -/
def writeArr (s : BufferHeap) (r : Nat) (xs : List A11yLogEntry) : BufferHeap :=
  { s with heap := s.heap.set r xs }

/-- The batch a subsequent flush would detach: the array the internal
`logBuffer` variable currently references. -/
def flushBatchOf (s : BufferHeap) : List A11yLogEntry :=
  readArr s.heap s.bufRef

/-- A scheduler trace state: the concrete state plus ghost fields recording
every entry ever enqueued (in order) and every batch any flush has detached
(in detach order, with a flag marking whether its send has completed). -/
structure TraceState where
  st : LoggerState
  history : List A11yLogEntry
  batches : List (List A11yLogEntry × Bool)
deriving DecidableEq, Repr

/-- The startup trace state. -/
def TraceState.init : TraceState where
  st := LoggerState.init
  history := []
  batches := []

/-- The batch a flush invoked on buffer `buf` detaches: everything, unless
the buffer is empty, in which case `flushLogs` returns without detaching. -/
def detachOf (buf : List A11yLogEntry) : List (List A11yLogEntry × Bool) :=
  if buf.length = 0 then [] else [(buf, false)]

/-- Mark one in-flight batch as completed (the suspended `await fetch`
resolving or rejecting); touches no scheduler state. -/
def markDone (bs : List (List A11yLogEntry × Bool)) (i : Nat) :
    List (List A11yLogEntry × Bool) :=
  match bs[i]? with
  | none => bs
  | some b => bs.set i (b.1, true)

/-- One scheduler event. The configuration and transport outcome are chosen
fresh at every step: settings are re-read at each decision point, and any
interleaving of enqueues, timer firings, manual flushes and send
completions is allowed. -/
inductive Step : TraceState → TraceState → Prop where
  /-- a recording call: `addLog` runs synchronously, detaching the whole
  buffer if the size threshold is reached. -/
  | enq (cfg : ResolvedConfig) (outcome : TransportOutcome)
      (e : A11yLogEntry) (ts : TraceState) :
      Step ts
        { st := (addLog cfg outcome e ts.st).1
          history := ts.history ++ [e]
          batches := ts.batches ++
            (if cfg.maxBufferSize ≤ ts.st.logBuffer.length + 1 then
              detachOf (ts.st.logBuffer ++ [e]) else []) }
  /-- a still-pending timed-flush task fires. -/
  | fire (cfg : ResolvedConfig) (outcome : TransportOutcome)
      (id : Nat) (ts : TraceState) (hid : id ∈ ts.st.pending) :
      Step ts
        { st := (timerFire cfg outcome id ts.st).1
          history := ts.history
          batches := ts.batches ++ detachOf ts.st.logBuffer }
  /-- a manual `a11yLogger.flush()` call. -/
  | manual (cfg : ResolvedConfig) (outcome : TransportOutcome) (ts : TraceState) :
      Step ts
        { st := (manualFlush cfg outcome ts.st).1
          history := ts.history
          batches := ts.batches ++ detachOf ts.st.logBuffer }
  /-- a suspended transport send completes; the queue, timer state and
  detached batches' contents are untouched. -/
  | complete (i : Nat) (ts : TraceState) :
      Step ts { ts with batches := markDone ts.batches i }

/-- Trace states reachable from startup by scheduler events. -/
inductive Reachable : TraceState → Prop where
  | init : Reachable TraceState.init
  | step {ts ts' : TraceState} : Reachable ts → Step ts ts' → Reachable ts'

theorem flushLogs_fst (cfg : ResolvedConfig) (outcome : TransportOutcome)
    (buf : List A11yLogEntry) : (flushLogs cfg outcome buf).1 = [] := by
  unfold flushLogs
  by_cases h : buf.length = 0
  · simp [h, List.length_eq_zero.mp h]
  · by_cases hl : cfg.lokiEnabled
    · cases outcome <;> simp [h, hl, fetchResult]
    · simp [h, hl]

theorem clearPendingTimer_spec (s : LoggerState) :
    (clearPendingTimer s).flushTimer = none ∧
    (clearPendingTimer s).logBuffer = s.logBuffer ∧
    (clearPendingTimer s).nextTimerId = s.nextTimerId ∧
    (clearPendingTimer s).pending =
      (match s.flushTimer with
       | none => s.pending
       | some id => s.pending.erase id) := by
  unfold clearPendingTimer
  cases h : s.flushTimer <;> simp [h]

theorem scheduleFlush_spec (s : LoggerState) :
    (scheduleFlush s).logBuffer = s.logBuffer ∧
    (scheduleFlush s).flushTimer.isSome = true ∧
    (scheduleFlush s).pending =
      (match s.flushTimer with
       | none => s.pending ++ [s.nextTimerId]
       | some _ => s.pending) := by
  unfold scheduleFlush
  cases h : s.flushTimer <;> simp [h]

theorem addLog_threshold (cfg : ResolvedConfig) (outcome : TransportOutcome)
    (e : A11yLogEntry) (s : LoggerState)
    (h : cfg.maxBufferSize ≤ s.logBuffer.length + 1) :
    (addLog cfg outcome e s).1.logBuffer = [] ∧
    (addLog cfg outcome e s).1.flushTimer = none ∧
    (addLog cfg outcome e s).1.pending =
      (match s.flushTimer with
       | none => s.pending
       | some id => s.pending.erase id) ∧
    (addLog cfg outcome e s).1.nextTimerId = s.nextTimerId ∧
    (addLog cfg outcome e s).2 = (flushLogs cfg outcome (s.logBuffer ++ [e])).2 := by
  unfold addLog
  cases hf : s.flushTimer <;>
    simp [h, clearPendingTimer, hf, flushLogs_fst]

theorem addLog_below (cfg : ResolvedConfig) (outcome : TransportOutcome)
    (e : A11yLogEntry) (s : LoggerState)
    (h : s.logBuffer.length + 1 < cfg.maxBufferSize) :
    (addLog cfg outcome e s).1 =
      scheduleFlush { s with logBuffer := s.logBuffer ++ [e] } ∧
    (addLog cfg outcome e s).2 = [] := by
  unfold addLog
  simp [Nat.not_le.mpr h]

/-- Timer discipline invariant: the stored handle and the runtime's pending
tasks agree (no handle ↔ no pending task, a handle ↔ exactly that one
pending task), and a stored handle implies a non-empty queue. -/
def timerInv (s : LoggerState) : Prop :=
  match s.flushTimer with
  | none => s.pending = []
  | some id => s.pending = [id] ∧ s.logBuffer ≠ []

/-- Batch-accounting invariant: the entries ever enqueued are exactly the
concatenation of the detached batches (in detach order) followed by the
current queue. -/
def batchInv (ts : TraceState) : Prop :=
  ts.history = (ts.batches.map Prod.fst).flatten ++ ts.st.logBuffer

/-- The combined reachable-state invariant. -/
def traceInv (ts : TraceState) : Prop :=
  batchInv ts ∧ timerInv ts.st

theorem markDone_map_fst (bs : List (List A11yLogEntry × Bool)) (i : Nat) :
    (markDone bs i).map Prod.fst = bs.map Prod.fst := by
  induction bs generalizing i with
  | nil => cases i <;> rfl
  | cons b rest ih =>
    cases i with
    | zero => simp [markDone]
    | succ n =>
      have hrec := ih n
      simp only [markDone] at hrec ⊢
      cases h : rest[n]? with
      | none => simp [h]
      | some c =>
        simp only [h] at hrec
        simp [h, hrec]

theorem traceInv_init : traceInv TraceState.init := by
  constructor <;> simp [batchInv, timerInv, TraceState.init, LoggerState.init]

theorem traceInv_step {ts ts' : TraceState} (hinv : traceInv ts)
    (hstep : Step ts ts') : traceInv ts' := by
  obtain ⟨hb, ht⟩ := hinv
  cases hstep with
  | enq cfg outcome e ts =>
    by_cases hth : cfg.maxBufferSize ≤ ts.st.logBuffer.length + 1
    · obtain ⟨h1, h2, h3, _, _⟩ := addLog_threshold cfg outcome e ts.st hth
      constructor
      · unfold batchInv at hb ⊢
        simp only [h1, hth, if_pos, detachOf]
        have hne : (ts.st.logBuffer ++ [e]).length ≠ 0 := by simp
        simp [hne, hb]
      · unfold timerInv at ht ⊢
        simp only [h2]
        cases hf : ts.st.flushTimer with
        | none => simp [hf] at ht h3; simp [h3, ht]
        | some id =>
          rw [hf] at ht h3
          simp at h3
          simp [h3, ht.1]
    · obtain ⟨h1, _⟩ := addLog_below cfg outcome e ts.st (Nat.not_le.mp hth)
      obtain ⟨hs1, hs2, hs3⟩ := scheduleFlush_spec { ts.st with logBuffer := ts.st.logBuffer ++ [e] }
      constructor
      · unfold batchInv at hb ⊢
        simp [h1, hs1, hth, hb]
      · unfold timerInv at ht ⊢
        rw [h1]
        cases hf : ts.st.flushTimer with
        | none =>
          simp [hf] at ht
          simp [scheduleFlush, hf, ht]
        | some id =>
          rw [hf] at ht
          simp [scheduleFlush, hf, ht.1]
  | fire cfg outcome id ts hid =>
    have hfl := flushLogs_fst cfg outcome
      { ts.st with pending := ts.st.pending.erase id, flushTimer := none }.logBuffer
    constructor
    · unfold batchInv at hb ⊢
      unfold timerFire
      simp only [flushLogs_fst, detachOf]
      by_cases h0 : ts.st.logBuffer.length = 0
      · simp [h0, List.length_eq_zero.mp h0, hb, List.length_eq_zero.mp h0 ▸ hb]
      · simp [h0, hb]
    · unfold timerInv at ht ⊢
      unfold timerFire
      simp only [flushLogs_fst]
      cases hf : ts.st.flushTimer with
      | none => rw [hf] at ht; rw [ht] at hid; cases hid
      | some j =>
        rw [hf] at ht
        rw [ht.1] at hid ⊢
        have : id = j := by simpa using hid
        simp [this]
  | manual cfg outcome ts =>
    constructor
    · unfold batchInv at hb ⊢
      unfold manualFlush
      obtain ⟨_, hcb, _, _⟩ := clearPendingTimer_spec ts.st
      simp only [flushLogs_fst, detachOf, hcb]
      by_cases h0 : ts.st.logBuffer.length = 0
      · simp [h0, List.length_eq_zero.mp h0, List.length_eq_zero.mp h0 ▸ hb]
      · simp [h0, hb]
    · unfold timerInv at ht ⊢
      unfold manualFlush
      obtain ⟨hca, _, _, hcd⟩ := clearPendingTimer_spec ts.st
      simp only [flushLogs_fst, hca]
      cases hf : ts.st.flushTimer with
      | none => rw [hf] at ht hcd; simp [clearPendingTimer, hf, ht]
      | some j => rw [hf] at ht hcd; simp [clearPendingTimer, hf, ht.1]
  | complete i ts =>
    constructor
    · unfold batchInv at hb ⊢
      simp [markDone_map_fst, hb]
    · exact ht

/-- Every reachable trace state satisfies the combined invariant. -/
theorem reachable_traceInv {ts : TraceState} (h : Reachable ts) : traceInv ts := by
  induction h with
  | init => exact traceInv_init
  | step _ hstep ih => exact traceInv_step ih hstep

/-- C1: Every enqueued entry belongs to exactly one flush cycle: in every
reachable trace state — over all interleavings of enqueues, timer firings,
manual flushes and send completions, with settings re-read each step — the
entries ever enqueued are exactly the detached batches in detach order
followed by the current queue, so no entry appears in two batches and no
entry is lost; entries appended while a send is suspended sit in the fresh
queue for a later flush. -/
theorem enqueued_entries_partition {ts : TraceState} (h : Reachable ts) :
    ts.history = (ts.batches.map Prod.fst).flatten ++ ts.st.logBuffer :=
  (reachable_traceInv h).1

/-- Witness for C1 at a concrete reachable state: the state after one
enqueue under the default configuration. -/
theorem enqueued_entries_partition_witness :
    (TraceState.mk
      (LoggerState.mk [A11yLogEntry.mk .info "m" 5 none []] (some 0) [0] 1)
      [A11yLogEntry.mk .info "m" 5 none []] []).history =
    (((TraceState.mk
      (LoggerState.mk [A11yLogEntry.mk .info "m" 5 none []] (some 0) [0] 1)
      [A11yLogEntry.mk .info "m" 5 none []] []).batches.map Prod.fst).flatten ++
      (TraceState.mk
      (LoggerState.mk [A11yLogEntry.mk .info "m" 5 none []] (some 0) [0] 1)
      [A11yLogEntry.mk .info "m" 5 none []] []).st.logBuffer) :=
  enqueued_entries_partition
    (Reachable.step Reachable.init
      (Step.enq (getA11yLoggerConfig {}) .ok
        (A11yLogEntry.mk .info "m" 5 none []) TraceState.init))

/-- C2: an enqueue that brings the queue length to at least `maxBufferSize`
cancels any pending timer, clears the timer handle, and invokes flush
immediately (its effects are precisely those of flushing the grown queue),
leaving the queue empty; an enqueue that stays strictly below the threshold
never flushes (queue keeps its entries, no effect is emitted) and ensures a
timer handle is stored. -/
theorem addLog_threshold_behaviour (cfg : ResolvedConfig)
    (outcome : TransportOutcome) (e : A11yLogEntry) (s : LoggerState) :
    (cfg.maxBufferSize ≤ s.logBuffer.length + 1 →
      (addLog cfg outcome e s).1.logBuffer = [] ∧
      (addLog cfg outcome e s).1.flushTimer = none ∧
      (∀ id, s.flushTimer = some id →
        (addLog cfg outcome e s).1.pending = s.pending.erase id) ∧
      (s.flushTimer = none → (addLog cfg outcome e s).1.pending = s.pending) ∧
      (addLog cfg outcome e s).2 =
        (flushLogs cfg outcome (s.logBuffer ++ [e])).2) ∧
    (s.logBuffer.length + 1 < cfg.maxBufferSize →
      (addLog cfg outcome e s).1.logBuffer = s.logBuffer ++ [e] ∧
      (addLog cfg outcome e s).2 = [] ∧
      (addLog cfg outcome e s).1.flushTimer.isSome = true) := by
  constructor
  · intro h
    obtain ⟨h1, h2, h3, h4, h5⟩ := addLog_threshold cfg outcome e s h
    refine ⟨h1, h2, ?_, ?_, h5⟩
    · intro id hid; rw [h3, hid]
    · intro hnone; rw [h3, hnone]
  · intro h
    obtain ⟨h1, h2⟩ := addLog_below cfg outcome e s h
    obtain ⟨hs1, hs2, _⟩ :=
      scheduleFlush_spec { s with logBuffer := s.logBuffer ++ [e] }
    exact ⟨by rw [h1]; exact hs1, h2, by rw [h1]; exact hs2⟩

/-- Witness for C2: with `maxBufferSize = 1` an enqueue into the empty
startup state flushes and empties the queue; with the default
`maxBufferSize = 100` it keeps the entry queued and emits nothing. -/
theorem addLog_threshold_behaviour_witness :
    (addLog (getA11yLoggerConfig (A11yLoggerConfig.mk none none none none
        (some 1) none none none none none)) .ok
      (A11yLogEntry.mk .info "m" 5 none []) LoggerState.init).1.logBuffer = [] ∧
    (addLog (getA11yLoggerConfig {}) .ok
      (A11yLogEntry.mk .info "m" 5 none []) LoggerState.init).1.logBuffer =
        [A11yLogEntry.mk .info "m" 5 none []] := by
  constructor
  · exact ((addLog_threshold_behaviour
      (getA11yLoggerConfig (A11yLoggerConfig.mk none none none none
        (some 1) none none none none none)) .ok
      (A11yLogEntry.mk .info "m" 5 none []) LoggerState.init).1 (by decide)).1
  · have h := ((addLog_threshold_behaviour (getA11yLoggerConfig {}) .ok
      (A11yLogEntry.mk .info "m" 5 none []) LoggerState.init).2 (by decide)).1
    simpa using h

/-- C9: in every reachable state at most one timed-flush task is pending
and any pending task is the stored handle; a stored handle implies a
non-empty queue; scheduling is a no-op while a handle is stored; a firing
timer clears the handle and, firing its own pending task, leaves no task
pending; a threshold flush and a manual flush cancel and clear any pending
timer; and a recording call made with no handle stored and below the size
threshold arms exactly one new pending timer. -/
theorem timer_discipline {ts : TraceState} (h : Reachable ts) :
    ts.st.pending.length ≤ 1 ∧
    (∀ id ∈ ts.st.pending, ts.st.flushTimer = some id) ∧
    (ts.st.flushTimer ≠ none → ts.st.logBuffer ≠ []) ∧
    (∀ id, ts.st.flushTimer = some id → scheduleFlush ts.st = ts.st) ∧
    (∀ cfg outcome id, (timerFire cfg outcome id ts.st).1.flushTimer = none) ∧
    (∀ cfg outcome id, id ∈ ts.st.pending →
      (timerFire cfg outcome id ts.st).1.pending = []) ∧
    (∀ cfg outcome e, cfg.maxBufferSize ≤ ts.st.logBuffer.length + 1 →
      (addLog cfg outcome e ts.st).1.flushTimer = none ∧
      (addLog cfg outcome e ts.st).1.pending = []) ∧
    (∀ cfg outcome, (manualFlush cfg outcome ts.st).1.flushTimer = none ∧
      (manualFlush cfg outcome ts.st).1.pending = []) ∧
    (∀ cfg outcome e, ts.st.flushTimer = none →
      ts.st.logBuffer.length + 1 < cfg.maxBufferSize →
      (addLog cfg outcome e ts.st).1.flushTimer.isSome = true ∧
      (addLog cfg outcome e ts.st).1.pending.length = 1) := by
  have hinv := (reachable_traceInv h).2
  unfold timerInv at hinv
  have hfacts : (ts.st.flushTimer = none ∧ ts.st.pending = []) ∨
      (∃ j, ts.st.flushTimer = some j ∧ ts.st.pending = [j] ∧
        ts.st.logBuffer ≠ []) := by
    rcases hm : ts.st.flushTimer with _ | j
    · rw [hm] at hinv; exact Or.inl ⟨rfl, hinv⟩
    · rw [hm] at hinv; exact Or.inr ⟨j, rfl, hinv.1, hinv.2⟩
  rcases hfacts with ⟨hf, hp⟩ | ⟨j, hf, hp, hbuf⟩
  · refine ⟨by rw [hp]; simp, ?_, ?_, ?_, ?_, ?_, ?_, ?_, ?_⟩
    · intro id hid; rw [hp] at hid; simp at hid
    · intro hne; exact absurd hf hne
    · intro id hid; rw [hf] at hid; exact Option.noConfusion hid
    · intro cfg outcome id; simp [timerFire, flushLogs_fst]
    · intro cfg outcome id hid; rw [hp] at hid; simp at hid
    · intro cfg outcome e hth
      obtain ⟨_, h2, h3, _, _⟩ := addLog_threshold cfg outcome e ts.st hth
      simp only [hf] at h3
      exact ⟨h2, by rw [h3]; exact hp⟩
    · intro cfg outcome
      obtain ⟨hca, _, _, hcd⟩ := clearPendingTimer_spec ts.st
      simp only [hf] at hcd
      constructor
      · simp [manualFlush, flushLogs_fst, hca]
      · simp [manualFlush, flushLogs_fst, hcd, hp]
    · intro cfg outcome e _ hbelow
      obtain ⟨h1, _⟩ := addLog_below cfg outcome e ts.st hbelow
      rw [h1]
      constructor
      · simp [scheduleFlush, hf]
      · simp [scheduleFlush, hf, hp]
  · refine ⟨by rw [hp]; simp, ?_, ?_, ?_, ?_, ?_, ?_, ?_, ?_⟩
    · intro id hid; rw [hp] at hid; simp at hid; rw [hf, hid]
    · intro _; exact hbuf
    · intro id _; simp [scheduleFlush, hf]
    · intro cfg outcome id; simp [timerFire, flushLogs_fst]
    · intro cfg outcome id hid
      rw [hp] at hid; simp at hid
      simp [timerFire, flushLogs_fst, hp, hid]
    · intro cfg outcome e hth
      obtain ⟨_, h2, h3, _, _⟩ := addLog_threshold cfg outcome e ts.st hth
      simp only [hf] at h3
      refine ⟨h2, ?_⟩
      rw [h3, hp]
      simp
    · intro cfg outcome
      obtain ⟨hca, _, _, hcd⟩ := clearPendingTimer_spec ts.st
      simp only [hf] at hcd
      constructor
      · simp [manualFlush, flushLogs_fst, hca]
      · simp only [manualFlush, flushLogs_fst]
        rw [hcd, hp]
        simp [manualFlush, flushLogs_fst]
    · intro cfg outcome e hf2 _
      rw [hf] at hf2
      exact Option.noConfusion hf2

/-- Witness for C9 at a concrete reachable state: the state after one
enqueue under the default configuration has at most one pending task. -/
theorem timer_discipline_witness :
    (TraceState.mk
      (LoggerState.mk [A11yLogEntry.mk .info "m" 5 none []] (some 0) [0] 1)
      [A11yLogEntry.mk .info "m" 5 none []] []).st.pending.length ≤ 1 :=
  (timer_discipline
    (Reachable.step Reachable.init
      (Step.enq (getA11yLoggerConfig {}) .ok
        (A11yLogEntry.mk .info "m" 5 none []) TraceState.init))).1

/-- C3: with Loki enabled, flushing a non-empty queue performs exactly one
POST, to `lokiUrl ++ "/loki/api/v1/push"`, whose payload holds exactly one
stream; that stream's labels are the configured job/container/environment/
service, and its `values` has one element per queued entry, in enqueue
order. -/
theorem flush_loki_payload (cfg : ResolvedConfig) (outcome : TransportOutcome)
    (buf : List A11yLogEntry) (hloki : cfg.lokiEnabled = true)
    (hne : buf ≠ []) :
    (flushLogs cfg outcome buf).2.filter Emit.isPost =
      [Emit.post (cfg.lokiUrl ++ "/loki/api/v1/push") [mkStream cfg buf]] ∧
    (mkStream cfg buf).job = cfg.jobLabel ∧
    (mkStream cfg buf).container = cfg.containerLabel ∧
    (mkStream cfg buf).environment = cfg.environment ∧
    (mkStream cfg buf).service = cfg.serviceLabel ∧
    (mkStream cfg buf).values.length = buf.length ∧
    (∀ i : Nat, (mkStream cfg buf).values[i]? = (buf[i]?).map entryValue) := by
  have hlen : ¬ buf.length = 0 := by simpa using hne
  refine ⟨?_, rfl, rfl, rfl, rfl, by simp [mkStream], ?_⟩
  · unfold flushLogs
    cases outcome <;> simp [hlen, hloki, fetchResult, Emit.isPost]
  · intro i
    simp [mkStream]

/-- Witness for C3: flushing one concrete entry with Loki enabled under
otherwise-default settings emits exactly one POST carrying one stream. -/
theorem flush_loki_payload_witness :
    (flushLogs (getA11yLoggerConfig (A11yLoggerConfig.mk none (some true) none
        none none none none none none none)) .ok
      [A11yLogEntry.mk .info "m" 5 none []]).2.filter Emit.isPost =
      [Emit.post ((getA11yLoggerConfig (A11yLoggerConfig.mk none (some true)
          none none none none none none none none)).lokiUrl ++
          "/loki/api/v1/push")
        [mkStream (getA11yLoggerConfig (A11yLoggerConfig.mk none (some true)
          none none none none none none none none))
          [A11yLogEntry.mk .info "m" 5 none []]]] :=
  (flush_loki_payload
    (getA11yLoggerConfig (A11yLoggerConfig.mk none (some true) none none none
      none none none none none)) .ok
    [A11yLogEntry.mk .info "m" 5 none []] (by decide) (by decide)).1

/-- C4: a failing transport call is caught inside flush — the transport
raised (`fetchResult` is an error) yet flush returns a plain result whose
only extra observable effect is one diagnostic `console.error` report; the
queue is empty afterwards and the failed batch is not re-queued; and a
subsequently enqueued entry flushes normally as a fresh one-entry batch. -/
theorem flush_failure_contained (cfg : ResolvedConfig) (err : String)
    (buf : List A11yLogEntry) (hloki : cfg.lokiEnabled = true)
    (hne : buf ≠ []) :
    fetchResult (.failure err) = Except.error err ∧
    (flushLogs cfg (.failure err) buf).1 = [] ∧
    (flushLogs cfg (.failure err) buf).2 =
      (flushLogs cfg .ok buf).2 ++
        [Emit.consoleError "[A11y Logger] Failed to send logs to Loki:" err] ∧
    (∀ log ∈ buf, log ∉ (flushLogs cfg (.failure err) buf).1) ∧
    (∀ e2 : A11yLogEntry,
      (flushLogs cfg .ok ((flushLogs cfg (.failure err) buf).1 ++ [e2])).2 =
        [Emit.post (cfg.lokiUrl ++ "/loki/api/v1/push") [mkStream cfg [e2]]]) := by
  have hlen : ¬ buf.length = 0 := by simpa using hne
  refine ⟨rfl, flushLogs_fst cfg _ buf, ?_, ?_, ?_⟩
  · unfold flushLogs
    simp [hlen, hloki, fetchResult]
  · intro log _
    rw [flushLogs_fst]
    simp
  · intro e2
    rw [flushLogs_fst]
    unfold flushLogs
    simp [hloki, fetchResult]

/-- Witness for C4: a failed flush of one concrete entry leaves the queue
empty. -/
theorem flush_failure_contained_witness :
    (flushLogs (getA11yLoggerConfig (A11yLoggerConfig.mk none (some true) none
        none none none none none none none)) (.failure "boom")
      [A11yLogEntry.mk .info "m" 5 none []]).1 = [] :=
  (flush_failure_contained
    (getA11yLoggerConfig (A11yLoggerConfig.mk none (some true) none none none
      none none none none none)) "boom"
    [A11yLogEntry.mk .info "m" 5 none []] (by decide) (by decide)).2.1

/-- C7: every value pair a remote-mode flush POSTs renders its timestamp as
the decimal string of the entry's epoch-millisecond timestamp times
1,000,000, a number whose sub-millisecond (mod 1,000,000) part is zero. -/
theorem values_timestamp_nanoseconds (cfg : ResolvedConfig)
    (outcome : TransportOutcome) (buf : List A11yLogEntry)
    (url : String) (streams : List LokiStream) (stm : LokiStream)
    (v : String × List (String × JsonVal))
    (hpost : Emit.post url streams ∈ (flushLogs cfg outcome buf).2)
    (hst : stm ∈ streams) (hv : v ∈ stm.values) :
    ∃ log ∈ buf, v.1 = Nat.repr (log.timestampMs * 1000000) ∧
      (log.timestampMs * 1000000) % 1000000 = 0 := by
  unfold flushLogs at hpost
  by_cases hlen : buf.length = 0
  · simp [hlen] at hpost
  · by_cases hloki : cfg.lokiEnabled
    · simp only [hlen, if_false, hloki, Bool.not_true, Bool.false_eq_true,
        if_false] at hpost
      cases outcome <;> simp [fetchResult] at hpost
      all_goals {
        obtain ⟨-, hstreams⟩ := hpost
        subst hstreams
        simp at hst
        subst hst
        simp [mkStream] at hv
        obtain ⟨log, hlog, hval⟩ := hv
        exact ⟨log, hlog, by rw [← hval]; exact ⟨rfl, Nat.mul_mod_left _ _⟩⟩
      }
    · simp only [hlen, if_false, hloki] at hpost
      simp at hpost
      obtain ⟨log, -, hlog⟩ := hpost
      by_cases hdev : cfg.isDevelopment <;> simp [hdev, devEcho] at hlog

/-- Witness for C7 at a concrete batch: the single value pair of a
one-entry flush at timestamp 5 ms. -/
theorem values_timestamp_nanoseconds_witness :
    ∃ log ∈ [A11yLogEntry.mk .info "m" 5 none []],
      (Nat.repr 5000000, logLine (A11yLogEntry.mk .info "m" 5 none [])).1 =
        Nat.repr (log.timestampMs * 1000000) ∧
      (log.timestampMs * 1000000) % 1000000 = 0 :=
  values_timestamp_nanoseconds
    (getA11yLoggerConfig (A11yLoggerConfig.mk none (some true) none none none
      none none none none none)) .ok
    [A11yLogEntry.mk .info "m" 5 none []]
    ((getA11yLoggerConfig (A11yLoggerConfig.mk none (some true) none none none
      none none none none none)).lokiUrl ++ "/loki/api/v1/push")
    [mkStream (getA11yLoggerConfig (A11yLoggerConfig.mk none (some true) none
      none none none none none none none))
      [A11yLogEntry.mk .info "m" 5 none []]]
    (mkStream (getA11yLoggerConfig (A11yLoggerConfig.mk none (some true) none
      none none none none none none none))
      [A11yLogEntry.mk .info "m" 5 none []])
    (Nat.repr 5000000, logLine (A11yLogEntry.mk .info "m" 5 none []))
    (by decide) (by decide) (by decide)

/-- C8: with Loki disabled a flush performs zero network calls; in
development mode it emits exactly one local `"[A11y LEVEL] message"` line
per entry, in enqueue order, with the entry's label map attached; outside
development mode it emits nothing. -/
theorem flush_local_echo (cfg : ResolvedConfig) (outcome : TransportOutcome)
    (buf : List A11yLogEntry) (hloki : cfg.lokiEnabled = false) :
    (flushLogs cfg outcome buf).2.filter Emit.isPost = [] ∧
    (cfg.isDevelopment = true →
      (flushLogs cfg outcome buf).2 = buf.map devEcho ∧
      (flushLogs cfg outcome buf).2.length = buf.length ∧
      (∀ i : Nat, (flushLogs cfg outcome buf).2[i]? = (buf[i]?).map devEcho) ∧
      ∀ log ∈ buf, devEcho log =
        Emit.consoleLine ("[A11y " ++ log.level.toUpper ++ "] " ++ log.message)
          log.labels) ∧
    (cfg.isDevelopment = false → (flushLogs cfg outcome buf).2 = []) := by
  by_cases hlen : buf.length = 0
  · have hb : buf = [] := List.length_eq_zero.mp hlen
    subst hb
    simp [flushLogs]
  · have hmain : (flushLogs cfg outcome buf).2 =
        buf.filterMap fun log =>
          if cfg.isDevelopment then some (devEcho log) else none := by
      unfold flushLogs
      simp [hlen, hloki]
    refine ⟨?_, ?_, ?_⟩
    · rw [hmain]
      by_cases hdev : cfg.isDevelopment <;>
        simp [hdev, List.filter_eq_nil_iff, devEcho, Emit.isPost]
    · intro hdev
      rw [hmain]
      simp only [hdev, if_true]
      have hfm : (buf.filterMap fun log => some (devEcho log)) =
          buf.map devEcho := by
        rw [← List.filterMap_eq_map]
        rfl
      refine ⟨hfm, ?_, ?_, ?_⟩
      · rw [hfm]; simp
      · intro i; rw [hfm]; simp
      · intro log _; rfl
    · intro hdev
      rw [hmain]
      simp [hdev]

/-- Witness for C8: flushing one concrete entry under the default (Loki
disabled, development off) configuration emits nothing. -/
theorem flush_local_echo_witness :
    (flushLogs (getA11yLoggerConfig {}) .ok
      [A11yLogEntry.mk .info "m" 5 none []]).2 = [] :=
  (flush_local_echo (getA11yLoggerConfig {}) .ok
    [A11yLogEntry.mk .info "m" 5 none []] (by decide)).2.2 (by decide)

/-- C6: a contrast entry's level is `error` exactly when a ratio was
supplied and is strictly below 3 (negative values included); it is `warn`
exactly when the ratio is absent or at least 3. -/
theorem contrast_level_rule (now : Nat) (message : String) (l : ContrastLabels) :
    ((contrastEntry now message l).level = Level.error ↔
      ∃ r, l.ratio = some r ∧ r < 3) ∧
    ((contrastEntry now message l).level = Level.warn ↔
      l.ratio = none ∨ ∃ r, l.ratio = some r ∧ 3 ≤ r) := by
  cases hr : l.ratio with
  | none => simp [contrastEntry, hr]
  | some r =>
    by_cases h3 : r < 3
    · simp [contrastEntry, hr, h3, not_le.mpr h3]
    · simp [contrastEntry, hr, h3, not_lt.mp h3]

/-- Witness for C6: a supplied ratio of 2 yields level `error`. -/
theorem contrast_level_rule_witness :
    (contrastEntry 5 "x" (ContrastLabels.mk none none (some 2) none none none
      none none none none)).level = Level.error :=
  (contrast_level_rule 5 "x" (ContrastLabels.mk none none (some 2) none none
    none none none none none)).1.mpr ⟨2, rfl, by norm_num⟩

/-- C5 counterexample: a contrast call supplying the falsy value
`requiredRatio = 0` produces a `requiredRatio` label of 4.5, not the
supplied 0, because the source defaults with `||`, which also replaces
falsy supplied values. -/
theorem contrast_requiredRatio_zero_counterexample :
    lookupLabel (contrastEntry 5 "x" (ContrastLabels.mk none none none
        (some 0) none none none none none none)) "requiredRatio" =
      some (JsonVal.num 4.5) ∧
    lookupLabel (contrastEntry 5 "x" (ContrastLabels.mk none none none
        (some 0) none none none none none none)) "requiredRatio" ≠
      some (JsonVal.num 0) := by
  refine ⟨by simp [lookupLabel, contrastEntry, orDefaultNum], ?_⟩
  simp only [lookupLabel, contrastEntry, orDefaultNum]
  simp
  norm_num

/-- C5 (amended): for every recording kind, each kind-specific label field
takes its documented default exactly when the caller omits the field or
supplies a falsy value (0 for numbers, the empty string for strings), and
any non-falsy supplied value is carried into the labels as supplied: the
first four conjuncts characterise the `||` defaulting applied to every
optional field, and the remaining conjuncts pin, field by field, which
default each label of contrast, wcag, evaluation, session, error and aria
carries; summary has no defaulted fields and its labels carry the required
values verbatim (falsy values such as 0 included). -/
theorem label_defaults_on_omitted_or_falsy (now : Nat) (message : String)
    (l : ContrastLabels) (w : WcagLabels) (ev : EvaluationLabels)
    (sn : SessionLabels) (er : ErrorLabels) (ar : AriaLabels)
    (sd : SummaryData) :
    (∀ d : String, orDefaultStr none d = d ∧ orDefaultStr (some "") d = d) ∧
    (∀ (d s : String), s ≠ "" → orDefaultStr (some s) d = s) ∧
    (∀ d : Rat, orDefaultNum none d = d ∧ orDefaultNum (some 0) d = d) ∧
    (∀ (d q : Rat), q ≠ 0 → orDefaultNum (some q) d = q) ∧
    lookupLabel (contrastEntry now message l) "selector" =
      some (.str (orDefaultStr l.selector "unknown")) ∧
    lookupLabel (contrastEntry now message l) "ratio" =
      some (.num (orDefaultNum l.ratio 0)) ∧
    lookupLabel (contrastEntry now message l) "requiredRatio" =
      some (.num (orDefaultNum l.requiredRatio 4.5)) ∧
    lookupLabel (contrastEntry now message l) "foreground" =
      some (.str (orDefaultStr l.foreground "unknown")) ∧
    lookupLabel (contrastEntry now message l) "background" =
      some (.str (orDefaultStr l.background "unknown")) ∧
    lookupLabel (contrastEntry now message l) "wcagLevel" =
      some (.str (orDefaultStr l.wcagLevel "AA")) ∧
    lookupLabel (contrastEntry now message l) "tagName" =
      some (.str (orDefaultStr (l.elementInfo.map ElementInfo.tagName)
        "unknown")) ∧
    lookupLabel (contrastEntry now message l) "page" =
      some (.str (orDefaultStr l.page "")) ∧
    lookupLabel (contrastEntry now message l) "theme" =
      some (.str (orDefaultStr l.theme "")) ∧
    lookupLabel (wcagEntry now message w) "selector" =
      some (.str (orDefaultStr w.selector "unknown")) ∧
    lookupLabel (wcagEntry now message w) "rule" =
      some (.str (orDefaultStr w.rule "unknown")) ∧
    lookupLabel (wcagEntry now message w) "wcagLevel" =
      some (.str (orDefaultStr w.wcagLevel "AA")) ∧
    lookupLabel (wcagEntry now message w) "severity" =
      some (.str (orDefaultStr w.severity "warning")) ∧
    lookupLabel (evaluationEntry now message ev) "resultsCount" =
      some (.num (orDefaultNum ev.resultsCount 0)) ∧
    lookupLabel (evaluationEntry now message ev) "issuesCount" =
      some (.num (orDefaultNum ev.issuesCount 0)) ∧
    lookupLabel (evaluationEntry now message ev) "criticalCount" =
      some (.num (orDefaultNum ev.criticalCount 0)) ∧
    lookupLabel (evaluationEntry now message ev) "evaluationTimeMs" =
      some (.num (orDefaultNum ev.evaluationTimeMs 0)) ∧
    lookupLabel (sessionEntry now message sn) "action" =
      some (.str (orDefaultStr sn.action "unknown")) ∧
    lookupLabel (sessionEntry now message sn) "userId" =
      some (.str (orDefaultStr sn.userId "anonymous")) ∧
    lookupLabel (sessionEntry now message sn) "userAgent" =
      some (.str (orDefaultStr sn.userAgent "unknown")) ∧
    lookupLabel (errorEntry now message er) "error" =
      some (.str (orDefaultStr er.error "unknown")) ∧
    lookupLabel (errorEntry now message er) "stack" =
      some (.str (orDefaultStr er.stack "")) ∧
    lookupLabel (ariaEntry now message ar) "selector" =
      some (.str (orDefaultStr ar.selector "unknown")) ∧
    lookupLabel (ariaEntry now message ar) "issue" =
      some (.str (orDefaultStr ar.issue "unknown")) ∧
    lookupLabel (ariaEntry now message ar) "tagName" =
      some (.str (orDefaultStr (ar.elementInfo.map AriaElementInfo.tagName)
        "unknown")) ∧
    lookupLabel (ariaEntry now message ar) "fix" =
      some (.str (orDefaultStr ar.fix "")) ∧
    lookupLabel (ariaEntry now message ar) "page" =
      some (.str (orDefaultStr ar.page "")) ∧
    lookupLabel (summaryEntry now sd) "totalElements" =
      some (.num sd.totalElements) ∧
    lookupLabel (summaryEntry now sd) "evaluatedElements" =
      some (.num sd.evaluatedElements) ∧
    lookupLabel (summaryEntry now sd) "issues" = some (.num sd.issues) ∧
    lookupLabel (summaryEntry now sd) "criticalIssues" =
      some (.num sd.criticalIssues) ∧
    lookupLabel (summaryEntry now sd) "evaluationTimeMs" =
      some (.num sd.evaluationTimeMs) := by
  refine ⟨?_, ?_, ?_, ?_, ?_, ?_, ?_, ?_, ?_, ?_, ?_, ?_, ?_, ?_, ?_, ?_,
    ?_, ?_, ?_, ?_, ?_, ?_, ?_, ?_, ?_, ?_, ?_, ?_, ?_, ?_, ?_, ?_, ?_, ?_,
    ?_, ?_⟩
  · intro d; exact ⟨rfl, by simp [orDefaultStr]⟩
  · intro d s hs; simp [orDefaultStr, hs]
  · intro d; exact ⟨rfl, by simp [orDefaultNum]⟩
  · intro d q hq; simp [orDefaultNum, hq]
  all_goals
    simp [lookupLabel, contrastEntry, wcagEntry, evaluationEntry,
      sessionEntry, errorEntry, ariaEntry, summaryEntry]

/-- Witness for amended C5 at concrete inputs: an omitted string field
defaults, a supplied non-falsy `requiredRatio = 7` is kept, and the falsy
`requiredRatio = 0` label of a concrete contrast call reads 4.5. -/
theorem label_defaults_on_omitted_or_falsy_witness :
    orDefaultStr none "AA" = "AA" ∧
    orDefaultNum (some 7) 4.5 = 7 ∧
    lookupLabel (contrastEntry 5 "m" (ContrastLabels.mk none none none
        (some 0) none none none none none none)) "requiredRatio" =
      some (.num (orDefaultNum (some 0) 4.5)) :=
  ⟨((label_defaults_on_omitted_or_falsy 5 "m" (ContrastLabels.mk none none
      none (some 0) none none none none none none) (WcagLabels.mk none none
      none none none) (EvaluationLabels.mk none none none none none)
      (SessionLabels.mk none none none none) (ErrorLabels.mk none none none)
      (AriaLabels.mk none none none none none none)
      (SummaryData.mk 0 0 0 0 0 none)).1 "AA").1,
   (label_defaults_on_omitted_or_falsy 5 "m" (ContrastLabels.mk none none
      none (some 0) none none none none none none) (WcagLabels.mk none none
      none none none) (EvaluationLabels.mk none none none none none)
      (SessionLabels.mk none none none none) (ErrorLabels.mk none none none)
      (AriaLabels.mk none none none none none none)
      (SummaryData.mk 0 0 0 0 0 none)).2.2.2.1 4.5 7 (by norm_num),
   (label_defaults_on_omitted_or_falsy 5 "m" (ContrastLabels.mk none none
      none (some 0) none none none none none none) (WcagLabels.mk none none
      none none none) (EvaluationLabels.mk none none none none none)
      (SessionLabels.mk none none none none) (ErrorLabels.mk none none none)
      (AriaLabels.mk none none none none none none)
      (SummaryData.mk 0 0 0 0 0 none)).2.2.2.2.2.2.1⟩

/-- C10: `_getLogBuffer` returns a fresh copy of the queue: its contents
equal the internal queue's, its reference is distinct from the internal
one, and after any caller-side mutation of the returned array the internal
queue, the timer handle, and the batch a subsequent flush would detach are
all unchanged. -/
theorem getLogBuffer_copy_frame (s : BufferHeap) (xs : List A11yLogEntry)
    (href : s.bufRef < s.heap.length) :
    readArr (getLogBufferCopy s).2.heap (getLogBufferCopy s).1 =
      readArr s.heap s.bufRef ∧
    (getLogBufferCopy s).1 ≠ s.bufRef ∧
    readArr (writeArr (getLogBufferCopy s).2 (getLogBufferCopy s).1 xs).heap
      s.bufRef = readArr s.heap s.bufRef ∧
    flushBatchOf (writeArr (getLogBufferCopy s).2 (getLogBufferCopy s).1 xs) =
      flushBatchOf s ∧
    (writeArr (getLogBufferCopy s).2 (getLogBufferCopy s).1 xs).flushTimer =
      s.flushTimer := by
  have hne : s.heap.length ≠ s.bufRef := (Nat.ne_of_lt href).symm
  have hread : readArr (s.heap ++ [readArr s.heap s.bufRef]) s.bufRef =
      readArr s.heap s.bufRef := by
    simp [readArr, List.getD, List.getElem?_append, href]
  have hwrite : readArr
      ((s.heap ++ [readArr s.heap s.bufRef]).set s.heap.length xs) s.bufRef =
      readArr (s.heap ++ [readArr s.heap s.bufRef]) s.bufRef := by
    simp [readArr, List.getD, List.getElem?_set_ne hne, List.getElem?_append,
      href]
  refine ⟨?_, hne, ?_, ?_, rfl⟩
  · simp [getLogBufferCopy, readArr, List.getD, List.getElem?_concat_length]
  · simp only [getLogBufferCopy, writeArr]
    rw [hwrite, hread]
  · simp only [flushBatchOf, getLogBufferCopy, writeArr]
    rw [hwrite, hread]

/-- Witness for C10: a concrete two-array heap whose buffer holds one
entry; overwriting the returned copy leaves the flush batch unchanged. -/
theorem getLogBuffer_copy_frame_witness :
    flushBatchOf (writeArr
      (getLogBufferCopy (BufferHeap.mk [[A11yLogEntry.mk .info "m" 5 none []]]
        0 none)).2
      (getLogBufferCopy (BufferHeap.mk [[A11yLogEntry.mk .info "m" 5 none []]]
        0 none)).1
      []) =
    flushBatchOf (BufferHeap.mk [[A11yLogEntry.mk .info "m" 5 none []]]
      0 none) :=
  (getLogBuffer_copy_frame
    (BufferHeap.mk [[A11yLogEntry.mk .info "m" 5 none []]] 0 none)
    [] (by decide)).2.2.2.1
